import Mathlib

/-!
Shallow embedding of the DHT11 single-wire sensor driver (`main/dht11.c` /
`main/dht11.h`) for verification of its specification.

Modelling conventions, fixed once for the whole development:

* The data line is modelled as a trace `f : Nat → Bool` giving the level
  (`true` = electrically high) observed by `gpio_get_level` at each
  microsecond tick, with tick 0 being the instant the driver switches the
  line to input mode.  Each call to `ets_delay_us(1)` inside the polling
  loops advances the tick by one; a poll itself consumes no time.
* `esp_err_t` is modelled by the inductive `EspErr`, with one constructor
  per error code the driver actually returns (`ESP_OK`,
  `ESP_ERR_INVALID_ARG`, `ESP_ERR_TIMEOUT`, `ESP_ERR_INVALID_CRC`).
  There is deliberately a single `timeout` constructor, because the C code
  returns the single value `ESP_ERR_TIMEOUT` from every timing-out step.
* The `ESP_LOGE`/`ESP_LOGI` messages the driver emits are modelled by the
  inductive `LogMsg`, one constructor per distinct format string, carrying
  the integer arguments that the format string interpolates.
* The driver stores `float` values, but every value it ever stores is the
  exact conversion `(float)b` of a byte `b < 256`, which is lossless; the
  embedding therefore represents temperature and humidity as `Nat`,
  "integer-only, no fractional part".
* The `NULL` check on the destination pointer is modelled by the boolean
  argument `destPresent`; the caller-owned destination structure is
  modelled by threading a `Reading` value in and out, so that "left
  untouched" is expressible as equality with the input.
* The GPIO direction/level/delay calls the driver performs before entering
  input mode are recorded in an explicit list of `GpioOp` events (the
  polling reads after the switch to input mode are modelled by the trace
  `f` itself, as above).
-/

set_option maxRecDepth 65536
set_option maxHeartbeats 4000000

namespace DHT11

/-- GPIO operations issued by the driver during the output (drive) phase,
mirroring `gpio_set_direction`, `gpio_set_level` and `ets_delay_us` calls. -/
inductive GpioOp where
  | setDirectionOutput : GpioOp
  | setLevel : Bool → GpioOp
  | delayUs : Nat → GpioOp
  | setDirectionInput : GpioOp
  deriving DecidableEq

/-- Error codes returned by `dht11_read`, one constructor per distinct
`esp_err_t` value occurring in the source (`ESP_OK`, `ESP_ERR_INVALID_ARG`,
`ESP_ERR_TIMEOUT`, `ESP_ERR_INVALID_CRC`). -/
inductive EspErr where
  | ok : EspErr
  | invalidArg : EspErr
  | timeout : EspErr
  | invalidCrc : EspErr
  deriving DecidableEq

/-- Log messages emitted by the driver, one constructor per distinct
`ESP_LOGE`/`ESP_LOGI` format string in `dht11_read`, carrying the
interpolated integer arguments. -/
inductive LogMsg where
  | errAckLow : LogMsg
  | errAckHigh : LogMsg
  | errDataStart : LogMsg
  | errBitStart : Nat → LogMsg
  | errBitPulse : Nat → LogMsg
  | errChecksum : Nat → Nat → LogMsg
  | infoReading : Nat → Nat → LogMsg
  deriving DecidableEq

/-- The caller-owned result structure `dht11_reading_t` (two fields,
temperature then humidity as declared in `dht11.h`). -/
structure Reading where
  temperature : Nat
  humidity : Nat
  deriving DecidableEq

/-- The two file-scope globals `current_humidity` and `current_temperature`
(the Latest-Reading Cache). -/
structure Cache where
  humidity : Nat
  temperature : Nat
  deriving DecidableEq

/-- Initial values of the globals: `static float current_humidity = 0.0f;
static float current_temperature = 0.0f;`. -/
def initialCache : Cache := ⟨0, 0⟩

/-- Accessor `dht11_get_humidity`, returning the global `current_humidity`. -/
def dht11_get_humidity (c : Cache) : Nat := c.humidity

/-- Accessor `dht11_get_temperature`, returning the global
`current_temperature`. -/
def dht11_get_temperature (c : Cache) : Nat := c.temperature

/-- Loop body of `wait_for_level`, with explicit fuel.  Each iteration polls
`f t`; on a mismatch it performs the post-increment check
`elapsed++ > timeout_us` (returning `none` for `ESP_ERR_TIMEOUT` when the
old counter value already exceeds the budget) and otherwise delays one tick
and retries.  On a match it returns the current tick.  The fuel
`timeout + 2` used by `wait_for_level` below is exact: the loop can run at
most `timeout + 2` iterations before returning. -/
def waitGo (f : Nat → Bool) (lvl : Bool) (timeout : Nat) :
    Nat → Nat → Nat → Option Nat
  | 0, _, _ => none
  | fuel + 1, t, elapsed =>
    if f t = lvl then some t
    else if timeout < elapsed then none
    else waitGo f lvl timeout fuel (t + 1) (elapsed + 1)

/-- Embedding of `wait_for_level(gpio, level, timeout_us)` started at tick
`t`: returns `some u` with `u` the tick of the first matching poll, or
`none` for `ESP_ERR_TIMEOUT`. -/
def wait_for_level (f : Nat → Bool) (lvl : Bool) (timeout : Nat) (t : Nat) :
    Option Nat :=
  waitGo f lvl timeout (timeout + 2) t 0

/-- Loop body of `measure_pulse`, with explicit fuel.  While `f t` still
equals the measured level it performs the post-increment check
`elapsed++ > timeout_us` (returning `none` for the sentinel `-1` when the
old counter value already exceeds the budget), then delays one tick and
retries; as soon as the level changes it returns the counter together with
the current tick. -/
def measureGo (f : Nat → Bool) (lvl : Bool) (timeout : Nat) :
    Nat → Nat → Nat → Option (Nat × Nat)
  | 0, _, _ => none
  | fuel + 1, t, elapsed =>
    if f t = lvl then
      if timeout < elapsed then none
      else measureGo f lvl timeout fuel (t + 1) (elapsed + 1)
    else some (elapsed, t)

/-- Embedding of `measure_pulse(gpio, level, timeout_us)` started at tick
`t`: returns `some (elapsed, u)` with `elapsed` the returned duration and
`u` the tick at which the level changed, or `none` for the sentinel `-1`. -/
def measure_pulse (f : Nat → Bool) (lvl : Bool) (timeout : Nat) (t : Nat) :
    Option (Nat × Nat) :=
  measureGo f lvl timeout (timeout + 2) t 0

/-- Bit-storing step of the 40-bit loop:
`if (duration > 40) data[i / 8] |= (1 << (7 - i % 8));` (and no write at
all for `duration <= 40`). -/
def storeBit (data : List Nat) (i duration : Nat) : List Nat :=
  if 40 < duration then
    data.set (i / 8) (data.getD (i / 8) 0 ||| 1 <<< (7 - i % 8))
  else data

/-- Outcome of the 40-iteration bit loop: the five assembled bytes and the
final tick, or the index of the bit whose start wait / pulse measurement
timed out. -/
inductive BitsResult where
  | ok : List Nat → Nat → BitsResult
  | errBitStart : Nat → BitsResult
  | errBitPulse : Nat → BitsResult
  deriving DecidableEq

/-- Embedding of the loop `for (int i = 0; i < 40; i++)` in `dht11_read`:
wait (budget 100) for the line to go high, measure (budget 100) the high
pulse, and store the decoded bit.  `fuel` counts the remaining iterations
(called with 40), `i` the current bit index, `t` the current tick. -/
def readBits (f : Nat → Bool) : Nat → Nat → Nat → List Nat → BitsResult
  | 0, _, t, data => .ok data t
  | fuel + 1, i, t, data =>
    match wait_for_level f true 100 t with
    | none => .errBitStart i
    | some t1 =>
      match measure_pulse f true 100 t1 with
      | none => .errBitPulse i
      | some (duration, t2) =>
        readBits f fuel (i + 1) t2 (storeBit data i duration)

/-- Result of one whole `dht11_read` transaction: the returned `esp_err_t`,
the destination structure after the call, the globals after the call, the
output-phase GPIO operations performed, and the log messages emitted. -/
structure DhtOutcome where
  err : EspErr
  dest : Reading
  cache : Cache
  ops : List GpioOp
  logs : List LogMsg
  deriving DecidableEq

/-- Output-phase operation sequence of `dht11_read`: configure as output,
drive high and hold 1000µs, drive low 20000µs, drive high 40µs, switch to
input. -/
def startOps : List GpioOp :=
  [.setDirectionOutput, .setLevel true, .delayUs 1000, .setLevel false,
   .delayUs 20000, .setLevel true, .delayUs 40, .setDirectionInput]

/-- Embedding of `dht11_read(gpio_num, reading)`.  `destPresent` models
`reading != NULL`; `dest` and `cache` are the destination structure and the
globals before the call.  The trace `f` gives the line level at each tick
after the switch to input mode. -/
def dht11_read (f : Nat → Bool) (destPresent : Bool) (dest : Reading)
    (cache : Cache) : DhtOutcome :=
  if destPresent = false then
    ⟨.invalidArg, dest, cache, [], []⟩
  else
    match wait_for_level f false 100 0 with
    | none => ⟨.timeout, dest, cache, startOps, [.errAckLow]⟩
    | some t1 =>
      match wait_for_level f true 100 t1 with
      | none => ⟨.timeout, dest, cache, startOps, [.errAckHigh]⟩
      | some t2 =>
        match wait_for_level f false 100 t2 with
        | none => ⟨.timeout, dest, cache, startOps, [.errDataStart]⟩
        | some t3 =>
          match readBits f 40 0 t3 [0, 0, 0, 0, 0] with
          | .errBitStart i =>
            ⟨.timeout, dest, cache, startOps, [.errBitStart i]⟩
          | .errBitPulse i =>
            ⟨.timeout, dest, cache, startOps, [.errBitPulse i]⟩
          | .ok data _ =>
            let checksum :=
              Nat.land
                (data.getD 0 0 + data.getD 1 0 + data.getD 2 0 +
                  data.getD 3 0) 255
            if checksum ≠ data.getD 4 0 then
              ⟨.invalidCrc, dest, cache, startOps,
                [.errChecksum checksum (data.getD 4 0)]⟩
            else
              ⟨.ok, ⟨data.getD 2 0, data.getD 0 0⟩,
                ⟨data.getD 0 0, data.getD 2 0⟩, startOps,
                [.infoReading (data.getD 2 0) (data.getD 0 0)]⟩

/-- Bits of one byte, most significant first, as transmitted by the
sensor. -/
def byteBits (b : Nat) : List Bool :=
  (List.range 8).map (fun k => b.testBit (7 - k))

/-- Level list of a legal protocol exchange for the given frame bytes, for
use as a concrete simulated line: acknowledgement low then high (one tick
each), then for every bit a one-tick low separator followed by a high pulse
of 41 ticks for a one-bit and 1 tick for a zero-bit; after the list the
line stays low. -/
def frameLevels (bytes : List Nat) : List Bool :=
  [false, true] ++
    (bytes.flatMap byteBits).flatMap
      (fun bit => false :: List.replicate (if bit then 41 else 1) true)

/-- Simulated line trace generated from a frame, low after the exchange. -/
def frameTrace (bytes : List Nat) : Nat → Bool :=
  fun t => (frameLevels bytes).getD t false

/-- Characterization of the `wait_for_level` loop body: with the exact fuel
invariant, the loop times out precisely when every remaining poll
mismatches. -/
theorem waitGo_none_iff (f : Nat → Bool) (lvl : Bool) (T : Nat) :
    ∀ fuel t elapsed, elapsed + fuel = T + 2 →
      (waitGo f lvl T fuel t elapsed = none ↔
        ∀ d, d < fuel → f (t + d) ≠ lvl) := by
  intro fuel
  induction fuel with
  | zero =>
    intro t elapsed _
    simp [waitGo]
  | succ n ih =>
    intro t elapsed h
    by_cases hf : f t = lvl
    · rw [waitGo, if_pos hf]
      constructor
      · intro hnone
        exact (Option.some_ne_none t hnone).elim
      · intro hall
        exact absurd hf (by simpa using hall 0 (Nat.succ_pos n))
    · rw [waitGo, if_neg hf]
      by_cases hT : T < elapsed
      · have hn : n = 0 := by omega
        subst hn
        rw [if_pos hT]
        constructor
        · intro _ d hd
          have hd0 : d = 0 := by omega
          subst hd0
          simpa using hf
        · intro _
          rfl
      · rw [if_neg hT]
        rw [ih (t + 1) (elapsed + 1) (by omega)]
        constructor
        · intro hr d hd
          cases d with
          | zero => simpa using hf
          | succ e =>
            rw [show t + (e + 1) = t + 1 + e from by omega]
            exact hr e (by omega)
        · intro hl d hd
          rw [show t + 1 + d = t + (d + 1) from by omega]
          exact hl (d + 1) (by omega)

/-- Success characterization of the `wait_for_level` loop body: the first
matching poll within the fuel window is returned. -/
theorem waitGo_some (f : Nat → Bool) (lvl : Bool) (T : Nat) :
    ∀ fuel t elapsed, elapsed + fuel = T + 2 →
      ∀ d, d < fuel → (∀ e, e < d → f (t + e) ≠ lvl) → f (t + d) = lvl →
        waitGo f lvl T fuel t elapsed = some (t + d) := by
  intro fuel
  induction fuel with
  | zero =>
    intro t elapsed _ d hd
    exact absurd hd (Nat.not_lt_zero d)
  | succ n ih =>
    intro t elapsed h d hd hmin hmatch
    cases d with
    | zero =>
      rw [waitGo, if_pos (by simpa using hmatch)]
      simp
    | succ d =>
      have hf : f t ≠ lvl := by simpa using hmin 0 (Nat.succ_pos d)
      have hT : ¬ T < elapsed := by omega
      rw [waitGo, if_neg hf, if_neg hT]
      have hrec : waitGo f lvl T n (t + 1) (elapsed + 1) = some (t + 1 + d) :=
        ih (t + 1) (elapsed + 1) (by omega) d (by omega)
          (fun e he => by
            rw [show t + 1 + e = t + (e + 1) from by omega]
            exact hmin (e + 1) (by omega))
          (by rw [show t + 1 + d = t + (d + 1) from by omega]; exact hmatch)
      rw [hrec, show t + 1 + d = t + (d + 1) from by omega]

/-- Timeout characterization of `wait_for_level`: the call reports
`ESP_ERR_TIMEOUT` exactly when none of the `timeout + 2` polls it performs
(at ticks `t` through `t + timeout + 1`) observes the target level. -/
theorem wait_for_level_none_iff (f : Nat → Bool) (lvl : Bool) (T t : Nat) :
    wait_for_level f lvl T t = none ↔ ∀ d, d ≤ T + 1 → f (t + d) ≠ lvl := by
  rw [wait_for_level, waitGo_none_iff f lvl T (T + 2) t 0 (by omega)]
  constructor <;> intro h d hd <;> exact h d (by omega)

/-- Success characterization of `wait_for_level`: if the first tick at
which the line holds the target level is `t + d` with `d ≤ timeout + 1`,
the call returns success at that tick. -/
theorem wait_for_level_some (f : Nat → Bool) (lvl : Bool) (T t d : Nat)
    (hd : d ≤ T + 1) (hmin : ∀ e, e < d → f (t + e) ≠ lvl)
    (hmatch : f (t + d) = lvl) :
    wait_for_level f lvl T t = some (t + d) :=
  waitGo_some f lvl T (T + 2) t 0 (by omega) d (by omega) hmin hmatch

/-- Sentinel characterization of the `measure_pulse` loop body: with the
exact fuel invariant, the loop returns the sentinel precisely when every
remaining poll still observes the measured level. -/
theorem measureGo_none_iff (f : Nat → Bool) (lvl : Bool) (T : Nat) :
    ∀ fuel t elapsed, elapsed + fuel = T + 2 →
      (measureGo f lvl T fuel t elapsed = none ↔
        ∀ d, d < fuel → f (t + d) = lvl) := by
  intro fuel
  induction fuel with
  | zero =>
    intro t elapsed _
    simp [measureGo]
  | succ n ih =>
    intro t elapsed h
    by_cases hf : f t = lvl
    · rw [measureGo, if_pos hf]
      by_cases hT : T < elapsed
      · have hn : n = 0 := by omega
        subst hn
        rw [if_pos hT]
        constructor
        · intro _ d hd
          have hd0 : d = 0 := by omega
          subst hd0
          simpa using hf
        · intro _
          rfl
      · rw [if_neg hT]
        rw [ih (t + 1) (elapsed + 1) (by omega)]
        constructor
        · intro hr d hd
          cases d with
          | zero => simpa using hf
          | succ e =>
            rw [show t + (e + 1) = t + 1 + e from by omega]
            exact hr e (by omega)
        · intro hl d hd
          rw [show t + 1 + d = t + (d + 1) from by omega]
          exact hl (d + 1) (by omega)
    · rw [measureGo, if_neg hf]
      constructor
      · intro hnone
        exact (Option.some_ne_none _ hnone).elim
      · intro hall
        exact absurd (by simpa using hall 0 (Nat.succ_pos n)) hf

/-- Success characterization of the `measure_pulse` loop body: if the level
first changes at offset `d` within the fuel window, the counter value `d`
is returned (shifted by the counter's start value). -/
theorem measureGo_some (f : Nat → Bool) (lvl : Bool) (T : Nat) :
    ∀ fuel t elapsed, elapsed + fuel = T + 2 →
      ∀ d, d < fuel → (∀ e, e < d → f (t + e) = lvl) → f (t + d) ≠ lvl →
        measureGo f lvl T fuel t elapsed = some (elapsed + d, t + d) := by
  intro fuel
  induction fuel with
  | zero =>
    intro t elapsed _ d hd
    exact absurd hd (Nat.not_lt_zero d)
  | succ n ih =>
    intro t elapsed h d hd hmin hchange
    cases d with
    | zero =>
      rw [measureGo, if_neg (by simpa using hchange)]
      simp
    | succ d =>
      have hf : f t = lvl := by simpa using hmin 0 (Nat.succ_pos d)
      have hT : ¬ T < elapsed := by omega
      rw [measureGo, if_pos hf, if_neg hT]
      have hrec : measureGo f lvl T n (t + 1) (elapsed + 1) =
          some (elapsed + 1 + d, t + 1 + d) :=
        ih (t + 1) (elapsed + 1) (by omega) d (by omega)
          (fun e he => by
            rw [show t + 1 + e = t + (e + 1) from by omega]
            exact hmin (e + 1) (by omega))
          (by rw [show t + 1 + d = t + (d + 1) from by omega]; exact hchange)
      rw [hrec, show t + 1 + d = t + (d + 1) from by omega,
        show elapsed + 1 + d = elapsed + (d + 1) from by omega]

/-- Sentinel characterization of `measure_pulse`: the call returns the
sentinel `-1` exactly when all of the `timeout + 2` polls it performs (at
ticks `t` through `t + timeout + 1`) still observe the measured level. -/
theorem measure_pulse_none_iff (f : Nat → Bool) (lvl : Bool) (T t : Nat) :
    measure_pulse f lvl T t = none ↔ ∀ d, d ≤ T + 1 → f (t + d) = lvl := by
  rw [measure_pulse, measureGo_none_iff f lvl T (T + 2) t 0 (by omega)]
  constructor <;> intro h d hd <;> exact h d (by omega)

/-- Success characterization of `measure_pulse`: if the line holds the
measured level for exactly `d` ticks (changing at tick `t + d`, with
`d ≤ timeout + 1`), the call returns the exact count `d`. -/
theorem measure_pulse_some (f : Nat → Bool) (lvl : Bool) (T t d : Nat)
    (hd : d ≤ T + 1) (hmin : ∀ e, e < d → f (t + e) = lvl)
    (hchange : f (t + d) ≠ lvl) :
    measure_pulse f lvl T t = some (d, t + d) := by
  have := measureGo_some f lvl T (T + 2) t 0 (by omega) d (by omega) hmin hchange
  simpa [measure_pulse] using this

/-- Masking with `0xFF` is reduction modulo 256, as used by the checksum
computation `(data[0] + data[1] + data[2] + data[3]) & 0xFF`. -/
theorem land_255_eq_mod (n : Nat) : Nat.land n 255 = n % 256 :=
  Nat.and_pow_two_sub_one_eq_mod n 8

/-- Path equation: a timeout of the first acknowledgement wait (low). -/
theorem read_ackLow_eq (f : Nat → Bool) (dest : Reading) (cache : Cache)
    (h1 : wait_for_level f false 100 0 = none) :
    dht11_read f true dest cache =
      ⟨.timeout, dest, cache, startOps, [.errAckLow]⟩ := by
  simp [dht11_read, h1]

/-- Path equation: a timeout of the second acknowledgement wait (high). -/
theorem read_ackHigh_eq (f : Nat → Bool) (dest : Reading) (cache : Cache)
    (t1 : Nat) (h1 : wait_for_level f false 100 0 = some t1)
    (h2 : wait_for_level f true 100 t1 = none) :
    dht11_read f true dest cache =
      ⟨.timeout, dest, cache, startOps, [.errAckHigh]⟩ := by
  simp [dht11_read, h1, h2]

/-- Path equation: a timeout of the data-start wait (low). -/
theorem read_dataStart_eq (f : Nat → Bool) (dest : Reading) (cache : Cache)
    (t1 t2 : Nat) (h1 : wait_for_level f false 100 0 = some t1)
    (h2 : wait_for_level f true 100 t1 = some t2)
    (h3 : wait_for_level f false 100 t2 = none) :
    dht11_read f true dest cache =
      ⟨.timeout, dest, cache, startOps, [.errDataStart]⟩ := by
  simp [dht11_read, h1, h2, h3]

/-- Path equation: a timeout waiting for bit `i` to start. -/
theorem read_bitStart_eq (f : Nat → Bool) (dest : Reading) (cache : Cache)
    (t1 t2 t3 i : Nat) (h1 : wait_for_level f false 100 0 = some t1)
    (h2 : wait_for_level f true 100 t1 = some t2)
    (h3 : wait_for_level f false 100 t2 = some t3)
    (h4 : readBits f 40 0 t3 [0, 0, 0, 0, 0] = BitsResult.errBitStart i) :
    dht11_read f true dest cache =
      ⟨.timeout, dest, cache, startOps, [.errBitStart i]⟩ := by
  simp [dht11_read, h1, h2, h3, h4]

/-- Path equation: a timeout measuring the pulse of bit `i`. -/
theorem read_bitPulse_eq (f : Nat → Bool) (dest : Reading) (cache : Cache)
    (t1 t2 t3 i : Nat) (h1 : wait_for_level f false 100 0 = some t1)
    (h2 : wait_for_level f true 100 t1 = some t2)
    (h3 : wait_for_level f false 100 t2 = some t3)
    (h4 : readBits f 40 0 t3 [0, 0, 0, 0, 0] = BitsResult.errBitPulse i) :
    dht11_read f true dest cache =
      ⟨.timeout, dest, cache, startOps, [.errBitPulse i]⟩ := by
  simp [dht11_read, h1, h2, h3, h4]

/-- Path equation: a checksum mismatch on a fully received frame. -/
theorem read_crcFail_eq (f : Nat → Bool) (dest : Reading) (cache : Cache)
    (t1 t2 t3 tEnd : Nat) (data : List Nat)
    (h1 : wait_for_level f false 100 0 = some t1)
    (h2 : wait_for_level f true 100 t1 = some t2)
    (h3 : wait_for_level f false 100 t2 = some t3)
    (h4 : readBits f 40 0 t3 [0, 0, 0, 0, 0] = BitsResult.ok data tEnd)
    (h5 : (data.getD 0 0 + data.getD 1 0 + data.getD 2 0 + data.getD 3 0)
        % 256 ≠ data.getD 4 0) :
    dht11_read f true dest cache =
      ⟨.invalidCrc, dest, cache, startOps,
        [.errChecksum
          ((data.getD 0 0 + data.getD 1 0 + data.getD 2 0 + data.getD 3 0)
            % 256) (data.getD 4 0)]⟩ := by
  have h5x : ¬ (data[0]?.getD 0 + data[1]?.getD 0 + data[2]?.getD 0 +
      data[3]?.getD 0) % 256 = data[4]?.getD 0 := by
    simpa [List.getD] using h5
  simp [dht11_read, h1, h2, h3, h4, land_255_eq_mod, h5x, List.getD]

/-- Path equation: a fully successful transaction with a valid checksum. -/
theorem read_ok_eq (f : Nat → Bool) (dest : Reading) (cache : Cache)
    (t1 t2 t3 tEnd : Nat) (data : List Nat)
    (h1 : wait_for_level f false 100 0 = some t1)
    (h2 : wait_for_level f true 100 t1 = some t2)
    (h3 : wait_for_level f false 100 t2 = some t3)
    (h4 : readBits f 40 0 t3 [0, 0, 0, 0, 0] = BitsResult.ok data tEnd)
    (h5 : (data.getD 0 0 + data.getD 1 0 + data.getD 2 0 + data.getD 3 0)
        % 256 = data.getD 4 0) :
    dht11_read f true dest cache =
      ⟨.ok, ⟨data.getD 2 0, data.getD 0 0⟩,
        ⟨data.getD 0 0, data.getD 2 0⟩, startOps,
        [.infoReading (data.getD 2 0) (data.getD 0 0)]⟩ := by
  have h5x : (data[0]?.getD 0 + data[1]?.getD 0 + data[2]?.getD 0 +
      data[3]?.getD 0) % 256 = data[4]?.getD 0 := by
    simpa [List.getD] using h5
  simp [dht11_read, h1, h2, h3, h4, land_255_eq_mod, h5x, List.getD]

/-- Structural invariants of every transaction with a present destination:
the output-phase operation list is exactly `startOps`, every non-success
outcome leaves destination and cache untouched, and every success outcome
leaves the cache holding exactly the destination values. -/
theorem read_state_invariants (f : Nat → Bool) (dest : Reading)
    (cache : Cache) :
    (dht11_read f true dest cache).ops = startOps ∧
    ((dht11_read f true dest cache).err ≠ EspErr.ok →
      (dht11_read f true dest cache).dest = dest ∧
      (dht11_read f true dest cache).cache = cache) ∧
    ((dht11_read f true dest cache).err = EspErr.ok →
      (dht11_read f true dest cache).cache =
        ⟨(dht11_read f true dest cache).dest.humidity,
          (dht11_read f true dest cache).dest.temperature⟩) := by
  rcases hw1 : wait_for_level f false 100 0 with _ | t1
  · rw [read_ackLow_eq f dest cache hw1]
    simp
  rcases hw2 : wait_for_level f true 100 t1 with _ | t2
  · rw [read_ackHigh_eq f dest cache t1 hw1 hw2]
    simp
  rcases hw3 : wait_for_level f false 100 t2 with _ | t3
  · rw [read_dataStart_eq f dest cache t1 t2 hw1 hw2 hw3]
    simp
  rcases hb : readBits f 40 0 t3 [0, 0, 0, 0, 0] with ⟨data, tEnd⟩ | i | i
  · by_cases hc :
      (data.getD 0 0 + data.getD 1 0 + data.getD 2 0 + data.getD 3 0) % 256
        = data.getD 4 0
    · rw [read_ok_eq f dest cache t1 t2 t3 tEnd data hw1 hw2 hw3 hb hc]
      simp
    · rw [read_crcFail_eq f dest cache t1 t2 t3 tEnd data hw1 hw2 hw3 hb hc]
      simp
  · rw [read_bitStart_eq f dest cache t1 t2 t3 i hw1 hw2 hw3 hb]
    simp
  · rw [read_bitPulse_eq f dest cache t1 t2 t3 i hw1 hw2 hw3 hb]
    simp

/-- C1: for every transaction in which the 40 received bits assemble into a
5-byte frame whose byte 4 equals (byte0 + byte1 + byte2 + byte3) mod 256,
`dht11_read` returns success, writes the destination temperature from byte
index 2 and humidity from byte index 0 (integer values; the float
conversion in the source is exact on bytes, so no fractional part), and
overwrites the Latest-Reading Cache with those same two values. -/
theorem checksum_valid_read_succeeds (f : Nat → Bool) (dest : Reading)
    (cache : Cache) (t1 t2 t3 tEnd : Nat) (data : List Nat)
    (h1 : wait_for_level f false 100 0 = some t1)
    (h2 : wait_for_level f true 100 t1 = some t2)
    (h3 : wait_for_level f false 100 t2 = some t3)
    (h4 : readBits f 40 0 t3 [0, 0, 0, 0, 0] = BitsResult.ok data tEnd)
    (h5 : data.getD 4 0 =
      (data.getD 0 0 + data.getD 1 0 + data.getD 2 0 + data.getD 3 0)
        % 256) :
    (dht11_read f true dest cache).err = EspErr.ok ∧
    (dht11_read f true dest cache).dest =
      ⟨data.getD 2 0, data.getD 0 0⟩ ∧
    (dht11_read f true dest cache).cache =
      ⟨data.getD 0 0, data.getD 2 0⟩ := by
  rw [read_ok_eq f dest cache t1 t2 t3 tEnd data h1 h2 h3 h4 h5.symm]
  exact ⟨rfl, rfl, rfl⟩

/-- Witness for C1 on the frame 50 / 0 / 24 / 0 / 74 (50 % humidity, 24 °C,
valid checksum). -/
theorem checksum_valid_read_succeeds_witness :
    (dht11_read (frameTrace [50, 0, 24, 0, 74]) true ⟨7, 8⟩ ⟨9, 10⟩).err
      = EspErr.ok ∧
    (dht11_read (frameTrace [50, 0, 24, 0, 74]) true ⟨7, 8⟩ ⟨9, 10⟩).dest
      = ⟨24, 50⟩ ∧
    (dht11_read (frameTrace [50, 0, 24, 0, 74]) true ⟨7, 8⟩ ⟨9, 10⟩).cache
      = ⟨50, 24⟩ :=
  checksum_valid_read_succeeds (frameTrace [50, 0, 24, 0, 74]) ⟨7, 8⟩
    ⟨9, 10⟩ 0 1 2 402 [50, 0, 24, 0, 74] (by decide) (by decide) (by decide)
    (by decide) (by decide)

/-- C2: every failing outcome of `dht11_read` leaves the caller's
destination structure and the Latest-Reading Cache untouched; in
particular a fully received frame violating the checksum invariant yields
the data-integrity error with both unchanged. -/
theorem failing_read_leaves_state (f : Nat → Bool) (dp : Bool)
    (dest : Reading) (cache : Cache)
    (hfail : (dht11_read f dp dest cache).err ≠ EspErr.ok) :
    (dht11_read f dp dest cache).dest = dest ∧
    (dht11_read f dp dest cache).cache = cache ∧
    (∀ t1 t2 t3 tEnd data,
      wait_for_level f false 100 0 = some t1 →
      wait_for_level f true 100 t1 = some t2 →
      wait_for_level f false 100 t2 = some t3 →
      readBits f 40 0 t3 [0, 0, 0, 0, 0] = BitsResult.ok data tEnd →
      (data.getD 0 0 + data.getD 1 0 + data.getD 2 0 + data.getD 3 0) % 256
        ≠ data.getD 4 0 →
      dp = true →
      (dht11_read f dp dest cache).err = EspErr.invalidCrc) := by
  cases dp
  · refine ⟨rfl, rfl, ?_⟩
    intro t1 t2 t3 tEnd data _ _ _ _ _ hdp
    cases hdp
  · have hinv := read_state_invariants f dest cache
    refine ⟨(hinv.2.1 hfail).1, (hinv.2.1 hfail).2, ?_⟩
    intro t1 t2 t3 tEnd data h1 h2 h3 h4 h5 _
    rw [read_crcFail_eq f dest cache t1 t2 t3 tEnd data h1 h2 h3 h4 h5]

/-- Witness for C2 on the frame 50 / 0 / 24 / 0 / 75, whose checksum byte
is wrong by one. -/
theorem failing_read_leaves_state_witness :
    (dht11_read (frameTrace [50, 0, 24, 0, 75]) true ⟨7, 8⟩ ⟨9, 10⟩).dest
      = ⟨7, 8⟩ ∧
    (dht11_read (frameTrace [50, 0, 24, 0, 75]) true ⟨7, 8⟩ ⟨9, 10⟩).cache
      = ⟨9, 10⟩ ∧
    (dht11_read (frameTrace [50, 0, 24, 0, 75]) true ⟨7, 8⟩ ⟨9, 10⟩).err
      = EspErr.invalidCrc := by
  have h := failing_read_leaves_state (frameTrace [50, 0, 24, 0, 75]) true
    ⟨7, 8⟩ ⟨9, 10⟩ (by decide)
  exact ⟨h.1, h.2.1,
    h.2.2 0 1 2 442 [50, 0, 24, 0, 75] (by decide) (by decide) (by decide)
      (by decide) (by decide) rfl⟩

/-- C3: in the 40-bit loop, a measured high-phase duration strictly greater
than 40 decodes as bit 1 and a duration of at most 40 decodes as bit 0
(exactly 40 gives 0 and 41 gives 1), and bit `i` is packed
most-significant-bit first into byte index `i / 8` at bit position
`7 - i % 8`. -/
theorem bit_threshold_and_packing (data : List Nat) (i duration : Nat)
    (hi : i < 40) (hlen : data.length = 5) :
    (duration ≤ 40 → storeBit data i duration = data) ∧
    (40 < duration → storeBit data i duration =
      data.set (i / 8) (data.getD (i / 8) 0 ||| 2 ^ (7 - i % 8))) ∧
    (40 < duration → i / 8 < 5 ∧
      Nat.testBit ((storeBit data i duration).getD (i / 8) 0)
        (7 - i % 8) = true) ∧
    storeBit data i 40 = data ∧
    storeBit data i 41 =
      data.set (i / 8) (data.getD (i / 8) 0 ||| 2 ^ (7 - i % 8)) := by
  have hb : 40 < duration → storeBit data i duration =
      data.set (i / 8) (data.getD (i / 8) 0 ||| 2 ^ (7 - i % 8)) := by
    intro h
    simp [storeBit, h, Nat.shiftLeft_eq]
  have ha : duration ≤ 40 → storeBit data i duration = data := by
    intro h
    simp [storeBit, Nat.not_lt.mpr h]
  refine ⟨ha, hb, ?_, ?_, ?_⟩
  · intro h
    have hdiv : i / 8 < 5 := by omega
    have hdiv2 : i / 8 < data.length := by omega
    refine ⟨hdiv, ?_⟩
    rw [hb h]
    have hset : (data.set (i / 8)
        (data.getD (i / 8) 0 ||| 2 ^ (7 - i % 8))).getD (i / 8) 0
        = data.getD (i / 8) 0 ||| 2 ^ (7 - i % 8) := by
      simp [List.getD, List.getElem?_set_self, hdiv2]
    rw [hset]
    simp [Nat.testBit_lor, Nat.testBit_two_pow_self]
  · simp [storeBit]
  · simp [storeBit, Nat.shiftLeft_eq]

/-- Witness for C3 at bit index 9 (byte 1, bit position 6): duration 40
stores nothing, duration 41 sets the bit. -/
theorem bit_threshold_and_packing_witness :
    storeBit [0, 0, 0, 0, 0] 9 40 = [0, 0, 0, 0, 0] ∧
    Nat.testBit ((storeBit [0, 0, 0, 0, 0] 9 41).getD 1 0) 6 = true := by
  have h41 := bit_threshold_and_packing [0, 0, 0, 0, 0] 9 41 (by decide)
    (by decide)
  have h40 := bit_threshold_and_packing [0, 0, 0, 0, 0] 9 40 (by decide)
    (by decide)
  exact ⟨h40.2.2.2.1, (h41.2.2.1 (by decide)).2⟩

/-- C4 counterexample: with budget 0, the first poll observes a mismatch,
so the number of polls without a match (one) exceeds the budget (zero); the
claim then demands a timeout failure, yet `wait_for_level` keeps polling
and returns success at tick 1. -/
theorem wait_budget_exceeded_still_succeeds :
    (fun t => decide (t = 1)) 0 ≠ true ∧ 0 < 1 ∧
    wait_for_level (fun t => decide (t = 1)) true 0 0 = some 1 := by decide

/-- C4 (amended): `wait_for_level` polls the line once per tick, returns
success at the first poll that observes the target level, and returns a
timeout exactly when the number of polls without a match exceeds the
budget plus one — equivalently, when none of its polls at ticks
`t .. t + timeout + 1` observes the target.  In particular the target
appearing at tick budget − 1 is inside the window and succeeds, and a line
that never reaches the target makes the call fail instead of polling
forever. -/
theorem wait_for_level_contract (f : Nat → Bool) (lvl : Bool) (T t : Nat) :
    (wait_for_level f lvl T t = none ↔
      ∀ d, d ≤ T + 1 → f (t + d) ≠ lvl) ∧
    (∀ d, d ≤ T + 1 → (∀ e, e < d → f (t + e) ≠ lvl) → f (t + d) = lvl →
      wait_for_level f lvl T t = some (t + d)) :=
  ⟨wait_for_level_none_iff f lvl T t,
    fun d hd => wait_for_level_some f lvl T t d hd⟩

/-- Witness for the amended C4: with budget 5, a line that never goes high
times out, and a line first high at tick 4 (budget − 1) succeeds there. -/
theorem wait_for_level_contract_witness :
    wait_for_level (fun _ => false) true 5 0 = none ∧
    wait_for_level (fun t => decide (t = 4)) true 5 0 = some 4 := by
  refine ⟨?_, ?_⟩
  · exact (wait_for_level_contract (fun _ => false) true 5 0).1.mpr
      (by decide)
  · exact (wait_for_level_contract (fun t => decide (t = 4)) true 5 0).2 4
      (by decide) (by decide) (by decide)

/-- C5 counterexample: with budget 0, the level holds for one poll, so the
count (one) exceeds the budget (zero); the claim then demands the sentinel,
yet `measure_pulse` keeps polling and returns the count 1 when the level
changes at tick 1. -/
theorem measure_budget_exceeded_still_counts :
    (fun t => decide (t = 0)) 0 = true ∧ 0 < 1 ∧
    measure_pulse (fun t => decide (t = 0)) true 0 0 = some (1, 1) := by
  decide

/-- C5 (amended): `measure_pulse` polls once per tick while the line holds
the measured level, returns the exact count of polls that observed the held
level as soon as the level changes, and returns the sentinel −1 exactly
when the count exceeds the budget plus one — equivalently, when the level
is still held at every poll at ticks `t .. t + timeout + 1`. -/
theorem measure_pulse_contract (f : Nat → Bool) (lvl : Bool) (T t : Nat) :
    (measure_pulse f lvl T t = none ↔
      ∀ d, d ≤ T + 1 → f (t + d) = lvl) ∧
    (∀ d, d ≤ T + 1 → (∀ e, e < d → f (t + e) = lvl) → f (t + d) ≠ lvl →
      measure_pulse f lvl T t = some (d, t + d)) :=
  ⟨measure_pulse_none_iff f lvl T t,
    fun d hd => measure_pulse_some f lvl T t d hd⟩

/-- Witness for the amended C5: with budget 5, a line that stays high
yields the sentinel, and a line high for exactly 3 ticks yields the count
3. -/
theorem measure_pulse_contract_witness :
    measure_pulse (fun _ => true) true 5 0 = none ∧
    measure_pulse (fun t => decide (t < 3)) true 5 0 = some (3, 3) := by
  refine ⟨?_, ?_⟩
  · exact (measure_pulse_contract (fun _ => true) true 5 0).1.mpr (by decide)
  · exact (measure_pulse_contract (fun t => decide (t < 3)) true 5 0).2 3
      (by decide) (by decide) (by decide)

/-- C6: calling `dht11_read` with an absent destination returns the
invalid-argument error immediately: no GPIO operation is recorded (the
operation list is empty) and the outcome does not depend on the line trace
at all, so the line is never polled. -/
theorem null_destination_rejected (f g : Nat → Bool) (dest : Reading)
    (cache : Cache) :
    dht11_read f false dest cache =
      ⟨EspErr.invalidArg, dest, cache, [], []⟩ ∧
    dht11_read f false dest cache = dht11_read g false dest cache :=
  ⟨rfl, rfl⟩

/-- C7 counterexample: two transactions that time out at different protocol
steps (acknowledgement-low versus acknowledgement-high, as the emitted
error logs show) return the very same error value, so the failing step is
not distinguishable from the returned value alone. -/
theorem timeout_steps_share_error_value :
    (dht11_read (fun _ => true) true ⟨7, 8⟩ ⟨9, 10⟩).logs
      = [LogMsg.errAckLow] ∧
    (dht11_read (fun _ => false) true ⟨7, 8⟩ ⟨9, 10⟩).logs
      = [LogMsg.errAckHigh] ∧
    (dht11_read (fun _ => true) true ⟨7, 8⟩ ⟨9, 10⟩).err
      = (dht11_read (fun _ => false) true ⟨7, 8⟩ ⟨9, 10⟩).err := by
  decide

/-- C7 (amended): every timeout failure of `dht11_read` is returned to the
caller as the single error value `ESP_ERR_TIMEOUT`; which protocol step
timed out (ack-low, ack-high, data-start, per-bit signal or per-bit pulse
with the failing bit index) is identified only by the emitted error log,
not by the returned value. -/
theorem timeout_value_and_step_log (f : Nat → Bool) (dest : Reading)
    (cache : Cache) :
    (wait_for_level f false 100 0 = none →
      dht11_read f true dest cache =
        ⟨EspErr.timeout, dest, cache, startOps, [.errAckLow]⟩) ∧
    (∀ t1, wait_for_level f false 100 0 = some t1 →
      wait_for_level f true 100 t1 = none →
      dht11_read f true dest cache =
        ⟨EspErr.timeout, dest, cache, startOps, [.errAckHigh]⟩) ∧
    (∀ t1 t2, wait_for_level f false 100 0 = some t1 →
      wait_for_level f true 100 t1 = some t2 →
      wait_for_level f false 100 t2 = none →
      dht11_read f true dest cache =
        ⟨EspErr.timeout, dest, cache, startOps, [.errDataStart]⟩) ∧
    (∀ t1 t2 t3 i, wait_for_level f false 100 0 = some t1 →
      wait_for_level f true 100 t1 = some t2 →
      wait_for_level f false 100 t2 = some t3 →
      readBits f 40 0 t3 [0, 0, 0, 0, 0] = BitsResult.errBitStart i →
      dht11_read f true dest cache =
        ⟨EspErr.timeout, dest, cache, startOps, [.errBitStart i]⟩) ∧
    (∀ t1 t2 t3 i, wait_for_level f false 100 0 = some t1 →
      wait_for_level f true 100 t1 = some t2 →
      wait_for_level f false 100 t2 = some t3 →
      readBits f 40 0 t3 [0, 0, 0, 0, 0] = BitsResult.errBitPulse i →
      dht11_read f true dest cache =
        ⟨EspErr.timeout, dest, cache, startOps, [.errBitPulse i]⟩) := by
  refine ⟨?_, ?_, ?_, ?_, ?_⟩
  · intro h1
    exact read_ackLow_eq f dest cache h1
  · intro t1 h1 h2
    exact read_ackHigh_eq f dest cache t1 h1 h2
  · intro t1 t2 h1 h2 h3
    exact read_dataStart_eq f dest cache t1 t2 h1 h2 h3
  · intro t1 t2 t3 i h1 h2 h3 h4
    exact read_bitStart_eq f dest cache t1 t2 t3 i h1 h2 h3 h4
  · intro t1 t2 t3 i h1 h2 h3 h4
    exact read_bitPulse_eq f dest cache t1 t2 t3 i h1 h2 h3 h4

/-- Witness for the amended C7: five concrete traces, one per timing-out
protocol step, each producing the timeout value and its step log. -/
theorem timeout_value_and_step_log_witness :
    dht11_read (fun _ => true) true ⟨7, 8⟩ ⟨9, 10⟩ =
      ⟨EspErr.timeout, ⟨7, 8⟩, ⟨9, 10⟩, startOps, [.errAckLow]⟩ ∧
    dht11_read (fun _ => false) true ⟨7, 8⟩ ⟨9, 10⟩ =
      ⟨EspErr.timeout, ⟨7, 8⟩, ⟨9, 10⟩, startOps, [.errAckHigh]⟩ ∧
    dht11_read (fun t => decide (1 ≤ t)) true ⟨7, 8⟩ ⟨9, 10⟩ =
      ⟨EspErr.timeout, ⟨7, 8⟩, ⟨9, 10⟩, startOps, [.errDataStart]⟩ ∧
    dht11_read (fun t => decide (t = 1)) true ⟨7, 8⟩ ⟨9, 10⟩ =
      ⟨EspErr.timeout, ⟨7, 8⟩, ⟨9, 10⟩, startOps, [.errBitStart 0]⟩ ∧
    dht11_read (fun t => decide (t = 1) || decide (3 ≤ t)) true ⟨7, 8⟩
        ⟨9, 10⟩ =
      ⟨EspErr.timeout, ⟨7, 8⟩, ⟨9, 10⟩, startOps, [.errBitPulse 0]⟩ := by
  refine ⟨?_, ?_, ?_, ?_, ?_⟩
  · exact (timeout_value_and_step_log (fun _ => true) ⟨7, 8⟩ ⟨9, 10⟩).1
      (by decide)
  · exact (timeout_value_and_step_log (fun _ => false) ⟨7, 8⟩ ⟨9, 10⟩).2.1 0
      (by decide) (by decide)
  · exact (timeout_value_and_step_log (fun t => decide (1 ≤ t)) ⟨7, 8⟩
      ⟨9, 10⟩).2.2.1 0 1 (by decide) (by decide) (by decide)
  · exact (timeout_value_and_step_log (fun t => decide (t = 1)) ⟨7, 8⟩
      ⟨9, 10⟩).2.2.2.1 0 1 2 0 (by decide) (by decide) (by decide)
      (by decide)
  · exact (timeout_value_and_step_log
      (fun t => decide (t = 1) || decide (3 ≤ t)) ⟨7, 8⟩ ⟨9, 10⟩).2.2.2.2
      0 1 2 0 (by decide) (by decide) (by decide) (by decide)

/-- C8: with a present destination the driver always records exactly the
start sequence — configure as output, drive high and hold 1000 µs, drive
low 20000 µs, drive high 40 µs, switch to input — and never drives the
line again (the operation list equals `startOps` for every trace and every
outcome); the three acknowledgement waits (low, high, low) each use a
100 µs budget and a timeout of any of them aborts the whole transaction
with the timeout error. -/
theorem start_sequence_and_ack_waits (f : Nat → Bool) (dest : Reading)
    (cache : Cache) :
    (dht11_read f true dest cache).ops = startOps ∧
    (wait_for_level f false 100 0 = none →
      (dht11_read f true dest cache).err = EspErr.timeout) ∧
    (∀ t1, wait_for_level f false 100 0 = some t1 →
      wait_for_level f true 100 t1 = none →
      (dht11_read f true dest cache).err = EspErr.timeout) ∧
    (∀ t1 t2, wait_for_level f false 100 0 = some t1 →
      wait_for_level f true 100 t1 = some t2 →
      wait_for_level f false 100 t2 = none →
      (dht11_read f true dest cache).err = EspErr.timeout) := by
  refine ⟨(read_state_invariants f dest cache).1, ?_, ?_, ?_⟩
  · intro h1
    rw [read_ackLow_eq f dest cache h1]
  · intro t1 h1 h2
    rw [read_ackHigh_eq f dest cache t1 h1 h2]
  · intro t1 t2 h1 h2 h3
    rw [read_dataStart_eq f dest cache t1 t2 h1 h2 h3]

/-- Witness for C8: the operation list on a concrete trace, plus the three
acknowledgement-timeout aborts on three concrete traces. -/
theorem start_sequence_and_ack_waits_witness :
    (dht11_read (fun _ => true) true ⟨7, 8⟩ ⟨9, 10⟩).ops = startOps ∧
    (dht11_read (fun _ => true) true ⟨7, 8⟩ ⟨9, 10⟩).err = EspErr.timeout ∧
    (dht11_read (fun _ => false) true ⟨7, 8⟩ ⟨9, 10⟩).err
      = EspErr.timeout ∧
    (dht11_read (fun t => decide (1 ≤ t)) true ⟨7, 8⟩ ⟨9, 10⟩).err
      = EspErr.timeout := by
  refine ⟨(start_sequence_and_ack_waits (fun _ => true) ⟨7, 8⟩ ⟨9, 10⟩).1,
    (start_sequence_and_ack_waits (fun _ => true) ⟨7, 8⟩ ⟨9, 10⟩).2.1
      (by decide),
    (start_sequence_and_ack_waits (fun _ => false) ⟨7, 8⟩ ⟨9, 10⟩).2.2.1 0
      (by decide) (by decide),
    (start_sequence_and_ack_waits (fun t => decide (1 ≤ t)) ⟨7, 8⟩
      ⟨9, 10⟩).2.2.2 0 1 (by decide) (by decide) (by decide)⟩

/-- C9: before any successful transaction both cache accessors return 0
(the initial values of the globals, which no failing transaction ever
changes); after a successful transaction each accessor returns exactly the
value that transaction wrote to the corresponding destination field — the
values of the most recent successful `dht11_read`. -/
theorem cache_accessors_track_success (f : Nat → Bool) (dest : Reading)
    (cache : Cache) :
    dht11_get_humidity initialCache = 0 ∧
    dht11_get_temperature initialCache = 0 ∧
    ((dht11_read f true dest cache).err = EspErr.ok →
      dht11_get_humidity (dht11_read f true dest cache).cache =
        (dht11_read f true dest cache).dest.humidity ∧
      dht11_get_temperature (dht11_read f true dest cache).cache =
        (dht11_read f true dest cache).dest.temperature) ∧
    ((dht11_read f true dest cache).err ≠ EspErr.ok →
      (dht11_read f true dest cache).cache = cache) := by
  refine ⟨rfl, rfl, ?_,
    fun h => ((read_state_invariants f dest cache).2.1 h).2⟩
  intro h
  rw [(read_state_invariants f dest cache).2.2 h]
  exact ⟨rfl, rfl⟩

/-- Witness for C9: the accessors read 0 initially, read the just-written
humidity after a successful transaction, and are unchanged by a failed
one. -/
theorem cache_accessors_track_success_witness :
    dht11_get_humidity initialCache = 0 ∧
    dht11_get_humidity
      (dht11_read (frameTrace [50, 0, 24, 0, 74]) true ⟨7, 8⟩
        ⟨9, 10⟩).cache = 50 ∧
    (dht11_read (fun _ => true) true ⟨7, 8⟩ ⟨9, 10⟩).cache = ⟨9, 10⟩ := by
  have hs := cache_accessors_track_success (frameTrace [50, 0, 24, 0, 74])
    ⟨7, 8⟩ ⟨9, 10⟩
  have hf := cache_accessors_track_success (fun _ => true) ⟨7, 8⟩ ⟨9, 10⟩
  refine ⟨hs.1, ?_, hf.2.2.2 (by decide)⟩
  rw [(hs.2.2.1 (by decide)).1]
  decide

/-- C10: the fractional bytes of the frame (indices 1 and 3) influence only
checksum validation, never the output: any two transactions delivering
checksum-valid frames that agree on byte 0 and byte 2 produce identical
destination and cache values, both succeeding — in particular a
checksum-valid frame with nonzero byte 1 or byte 3 still succeeds, those
bytes being neither checked against zero nor surfaced. -/
theorem fraction_bytes_not_surfaced (f g : Nat → Bool)
    (dest dest2 : Reading) (cache cache2 : Cache)
    (t1 t2 t3 tEnd u1 u2 u3 uEnd : Nat) (data data2 : List Nat)
    (hf1 : wait_for_level f false 100 0 = some t1)
    (hf2 : wait_for_level f true 100 t1 = some t2)
    (hf3 : wait_for_level f false 100 t2 = some t3)
    (hf4 : readBits f 40 0 t3 [0, 0, 0, 0, 0] = BitsResult.ok data tEnd)
    (hf5 : (data.getD 0 0 + data.getD 1 0 + data.getD 2 0 + data.getD 3 0)
      % 256 = data.getD 4 0)
    (hg1 : wait_for_level g false 100 0 = some u1)
    (hg2 : wait_for_level g true 100 u1 = some u2)
    (hg3 : wait_for_level g false 100 u2 = some u3)
    (hg4 : readBits g 40 0 u3 [0, 0, 0, 0, 0] = BitsResult.ok data2 uEnd)
    (hg5 : (data2.getD 0 0 + data2.getD 1 0 + data2.getD 2 0 +
      data2.getD 3 0) % 256 = data2.getD 4 0)
    (e0 : data.getD 0 0 = data2.getD 0 0)
    (e2 : data.getD 2 0 = data2.getD 2 0) :
    (dht11_read f true dest cache).err = EspErr.ok ∧
    (dht11_read g true dest2 cache2).err = EspErr.ok ∧
    (dht11_read f true dest cache).dest =
      (dht11_read g true dest2 cache2).dest ∧
    (dht11_read f true dest cache).cache =
      (dht11_read g true dest2 cache2).cache := by
  rw [read_ok_eq f dest cache t1 t2 t3 tEnd data hf1 hf2 hf3 hf4 hf5,
    read_ok_eq g dest2 cache2 u1 u2 u3 uEnd data2 hg1 hg2 hg3 hg4 hg5]
  exact ⟨rfl, rfl, by rw [e0, e2], by rw [e0, e2]⟩

/-- Witness for C10: the frame 50 / 0 / 24 / 0 / 74 and the frame
50 / 5 / 24 / 7 / 86 (nonzero fractional bytes, valid checksum) both
succeed and produce the same destination values. -/
theorem fraction_bytes_not_surfaced_witness :
    (dht11_read (frameTrace [50, 5, 24, 7, 86]) true ⟨7, 8⟩ ⟨9, 10⟩).err
      = EspErr.ok ∧
    (dht11_read (frameTrace [50, 0, 24, 0, 74]) true ⟨0, 0⟩ ⟨0, 0⟩).dest
      = (dht11_read (frameTrace [50, 5, 24, 7, 86]) true ⟨7, 8⟩
        ⟨9, 10⟩).dest := by
  have h := fraction_bytes_not_surfaced (frameTrace [50, 0, 24, 0, 74])
    (frameTrace [50, 5, 24, 7, 86]) ⟨0, 0⟩ ⟨7, 8⟩ ⟨0, 0⟩ ⟨9, 10⟩
    0 1 2 402 0 1 2 642 [50, 0, 24, 0, 74] [50, 5, 24, 7, 86]
    (by decide) (by decide) (by decide) (by decide) (by decide)
    (by decide) (by decide) (by decide) (by decide) (by decide)
    (by decide) (by decide)
  exact ⟨h.2.1, h.2.2.1⟩

end DHT11
